import Mathlib

/-
  Verification of the commit-tutor backend's LLM response-normalization
  pipeline.  The Python services under app/services are shallowly embedded:
  JSON-ish runtime values become the inductive type PyVal, dicts become
  association lists, and each service function becomes a Lean function
  translated from the corresponding Python source.
-/

namespace CommitTutor

/-- Model of the dynamically typed values flowing through the services:
the subset of Python values that can result from parsing JSON, plus None
and booleans.  Dicts are association lists in insertion order. -/
inductive PyVal where
  | none
  | bool (b : Bool)
  | int (n : Int)
  | str (s : String)
  | list (xs : List PyVal)
  | dict (xs : List (String × PyVal))

/-- First-match lookup in a dict, modelling `d[k]` / `k in d` on Python
dicts (which never hold duplicate keys). -/
def dictGet (xs : List (String × PyVal)) (k : String) : Option PyVal :=
  match xs with
  | [] => Option.none
  | (k', v) :: rest => if k' = k then some v else dictGet rest k

/-- Python `d.get(k, default)`: the stored value when the key is present
(even if that value is None), otherwise the default. -/
def dictGetD (xs : List (String × PyVal)) (k : String) (d : PyVal) : PyVal :=
  match dictGet xs k with
  | some v => v
  | Option.none => d

/-- Python `d[k] = v`: replace the first binding of `k` in place, or append
a new binding at the end. -/
def dictSet (xs : List (String × PyVal)) (k : String) (v : PyVal) : List (String × PyVal) :=
  match xs with
  | [] => [(k, v)]
  | (k', v') :: rest => if k' = k then (k', v) :: rest else (k', v') :: dictSet rest k v

/-- Python truthiness for the modelled values. -/
def pyTruthy : PyVal → Bool
  | .none => false
  | .bool b => b
  | .int n => n != 0
  | .str s => s ≠ ""
  | .list xs => xs.length != 0
  | .dict xs => xs.length != 0

mutual

/-- Python `repr` for the modelled values (string form used by `str` for
everything except strings themselves). -/
def pyRepr : PyVal → String
  | .none => "None"
  | .bool b => if b then "True" else "False"
  | .int n => toString n
  | .str s => "'" ++ s ++ "'"
  | .list xs => "[" ++ pyReprList xs ++ "]"
  | .dict xs => "\x7b" ++ pyReprDict xs ++ "\x7d"

def pyReprList : List PyVal → String
  | [] => ""
  | [x] => pyRepr x
  | x :: rest => pyRepr x ++ ", " ++ pyReprList rest

def pyReprDict : List (String × PyVal) → String
  | [] => ""
  | [(k, v)] => "'" ++ k ++ "': " ++ pyRepr v
  | (k, v) :: rest => "'" ++ k ++ "': " ++ pyRepr v ++ ", " ++ pyReprDict rest

end

/-- Python `str(v)`. -/
def pyStr : PyVal → String
  | .str s => s
  | v => pyRepr v

mutual

/-- Python `==` on the modelled values: numeric cross-type equality
between bool and int, mismatched kinds unequal.  Dicts compare pairwise in
insertion order, an approximation adequate for the scalar values the
services actually compare. -/
def pyEq : PyVal → PyVal → Bool
  | .none, .none => true
  | .bool a, .bool b => a == b
  | .bool a, .int n => (if a then (1 : Int) else 0) == n
  | .int n, .bool b => n == (if b then (1 : Int) else 0)
  | .int a, .int b => a == b
  | .str a, .str b => a == b
  | .list a, .list b => pyEqList a b
  | .dict a, .dict b => pyEqDict a b
  | _, _ => false

def pyEqList : List PyVal → List PyVal → Bool
  | [], [] => true
  | a :: as', b :: bs' => pyEq a b && pyEqList as' bs'
  | _, _ => false

def pyEqDict : List (String × PyVal) → List (String × PyVal) → Bool
  | [], [] => true
  | (k, v) :: as', (k', v') :: bs' => k == k' && pyEq v v' && pyEqDict as' bs'
  | _, _ => false

end

/-- Whitespace test used by the string helpers (covers the characters the
services ever strip). -/
def pySpace (c : Char) : Bool := c.isWhitespace

/-- Python `s.strip()`. -/
def strStrip (s : String) : String :=
  String.mk (((s.data.dropWhile pySpace).reverse.dropWhile pySpace).reverse)

/-- Python `s.lower()` (the services only feed it ASCII type tags). -/
def strLower (s : String) : String :=
  String.mk (s.data.map Char.toLower)

/-- Python slicing `s[:n]`. -/
def strSlice (s : String) (n : Nat) : String :=
  String.mk (s.data.take n)

/-- Python `s.isdigit()`: non-empty and all digits. -/
def strIsDigit (s : String) : Bool :=
  s.data ≠ [] && s.data.all Char.isDigit

/-- Numeric value of a digit string (the services only call it under an
`isdigit` guard, so plain base-10 accumulation is exact). -/
def digitsToNat (s : String) : Nat :=
  s.data.foldl (fun a c => a * 10 + (c.toNat - 48)) 0

/-- Python `pat in s`: substring containment. -/
def strContains (s pat : String) : Bool :=
  (List.range (s.data.length + 1)).any (fun i => pat.data.isPrefixOf (s.data.drop i))

/-- Tail of `s` after the first occurrence of `pat`, i.e.
`s.split(pat, 1)[1]` when `pat in s`, and failure otherwise. -/
def splitTailAux (pat : List Char) : List Char → Option (List Char)
  | [] => if pat.isEmpty then some [] else Option.none
  | c :: t =>
    if pat.isPrefixOf (c :: t) then some ((c :: t).drop pat.length)
    else splitTailAux pat t

def splitOnceTail (s pat : String) : Option String :=
  (splitTailAux pat.data s.data).map String.mk

/-- Python `s.split("\n")[0]`. -/
def firstLine (s : String) : String :=
  String.mk (s.data.takeWhile (fun c => c ≠ '\n'))

/-- Python `s.startswith(pre)`. -/
def strStartsWith (s pre : String) : Bool :=
  pre.data.isPrefixOf s.data

/-- Python `s.endswith(suf)`. -/
def strEndsWith (s suf : String) : Bool :=
  suf.data.isSuffixOf s.data

/-- Python `s[n:]`. -/
def strDrop (s : String) (n : Nat) : String :=
  String.mk (s.data.drop n)

/-- Python `s[:-n]` for positive `n` (used to cut a trailing fence). -/
def strDropRight (s : String) (n : Nat) : String :=
  String.mk (s.data.take (s.data.length - n))

/-- Python `int(v)`, as applied by the services: ints pass through, bools
become 0/1, strings parse as an optionally signed decimal literal after
stripping, everything else (None, lists, dicts) raises and is reported as
failure. -/
def pyIntCoerce : PyVal → Option Int
  | .int n => some n
  | .bool b => some (if b then 1 else 0)
  | .str s =>
    let t := strStrip s
    match t.data with
    | '-' :: rest => if rest ≠ [] && rest.all Char.isDigit then some (-(Int.ofNat (digitsToNat (String.mk rest)))) else Option.none
    | '+' :: rest => if rest ≠ [] && rest.all Char.isDigit then some (Int.ofNat (digitsToNat (String.mk rest))) else Option.none
    | l => if l ≠ [] && l.all Char.isDigit then some (Int.ofNat (digitsToNat (String.mk l))) else Option.none
  | _ => Option.none

/-! ## Quiz question schema (app/schemas/quiz.py) -/

/-- Typed record produced by pydantic validation of `QuizQuestionResponse`
(app/schemas/quiz.py lines 10-18): `type` is the literal "multiple" or
"short", `correctAnswer` is an int-or-string union. -/
structure QuizQuestionResponse where
  id : String
  type : String
  question : String
  codeContext : Option String
  options : Option (List String)
  correctAnswer : Sum Int String
  explanation : Option String
deriving DecidableEq

/-- Pydantic string field: accepts exactly a string value. -/
def pyFieldStr : Option PyVal → Option String
  | some (.str s) => some s
  | _ => Option.none

/-- Pydantic `Literal["multiple", "short"]` field. -/
def pyFieldType : Option PyVal → Option String
  | some (.str s) => if s = "multiple" ∨ s = "short" then some s else Option.none
  | _ => Option.none

/-- Pydantic `Optional[str]` field with default None: an absent key or a
None value validates to none, a string validates to some. -/
def pyFieldOptStr : Option PyVal → Option (Option String)
  | Option.none => some Option.none
  | some .none => some Option.none
  | some (.str s) => some (some s)
  | some _ => Option.none

/-- Element extractor for `List[str]`. -/
def pyElemStr : PyVal → Option String
  | .str s => some s
  | _ => Option.none

/-- All-or-nothing extraction of a `List[str]` value. -/
def strListM : List PyVal → Option (List String)
  | [] => some []
  | v :: rest =>
    match pyElemStr v with
    | some s => (strListM rest).map (s :: ·)
    | Option.none => Option.none

/-- Pydantic `Optional[List[str]]` field with default None. -/
def pyFieldOptStrList : Option PyVal → Option (Option (List String))
  | Option.none => some Option.none
  | some .none => some Option.none
  | some (.list xs) => (strListM xs).map some
  | some _ => Option.none

/-- Pydantic `Union[int, str]` field (required). -/
def pyFieldAnswer : Option PyVal → Option (Sum Int String)
  | some (.int n) => some (Sum.inl n)
  | some (.str s) => some (Sum.inr s)
  | _ => Option.none

/-- Model of constructing `QuizQuestionResponse(**data)`: field-by-field
pydantic validation of a dict, failure standing for the ValidationError
that the calling services catch and turn into a per-question skip.  Extra
keys are ignored, as pydantic does by default. -/
def pydanticValidate : PyVal → Option QuizQuestionResponse
  | .dict xs => do
    let i ← pyFieldStr (dictGet xs "id")
    let t ← pyFieldType (dictGet xs "type")
    let q ← pyFieldStr (dictGet xs "question")
    let cc ← pyFieldOptStr (dictGet xs "codeContext")
    let opts ← pyFieldOptStrList (dictGet xs "options")
    let ca ← pyFieldAnswer (dictGet xs "correctAnswer")
    let ex ← pyFieldOptStr (dictGet xs "explanation")
    pure ⟨i, t, q, cc, opts, ca, ex⟩
  | _ => Option.none

/-! ## Quiz question normalization (app/services/quiz_generator.py) -/

/-- The `_type_aliases` table from `QuizGenerator.__init__`. -/
def typeAliases : String → Option String
  | "subjective" => some "short"
  | "descriptive" => some "short"
  | "open-ended" => some "short"
  | "open_ended" => some "short"
  | "short_answer" => some "short"
  | "objective" => some "multiple"
  | "multiple_choice" => some "multiple"
  | "mcq" => some "multiple"
  | _ => Option.none

/-- Type resolution step of `_normalize_question_data` (lines 48-55):
stringify/strip/lower the raw type, default an empty result from the
truthiness of `options`, map aliases, and reject anything that is not
"multiple" or "short".  `typeVal` is `normalized.get("type", "")` and
`optionsVal` is `normalized.get("options")`. -/
def acceptQuestionType (s : String) : Option String :=
  if s = "multiple" ∨ s = "short" then some s else Option.none

def resolveQuestionType (typeVal : PyVal) (optionsVal : PyVal) : Option String :=
  let q0 := strLower (strStrip (pyStr typeVal))
  let q1 := if q0 = "" then (if pyTruthy optionsVal then "multiple" else "short") else q0
  acceptQuestionType ((typeAliases q1).getD q1)

/-- Option-cleaning loop of `_normalize_question_data` (lines 82-90): drop
None entries, stringify and strip the rest, keep non-empty texts, and
break once `_max_options = 4` have been collected. -/
def cleanOptions : List PyVal → List String → List String
  | [], acc => acc
  | o :: rest, acc =>
    match o with
    | .none => cleanOptions rest acc
    | v =>
      let t := strStrip (pyStr v)
      let acc2 := if t = "" then acc else acc ++ [t]
      if 4 ≤ acc2.length then acc2 else cleanOptions rest acc2

/-- Answer resolution for multiple-choice questions (lines 105-124 of
`_normalize_question_data`): a string tries, in order, a digit literal, a
case-insensitive exact match against the cleaned options, and — only when
it starts with "option" — the concatenated digits used directly as the
index; a bool coerces to 0/1; an int passes through; anything else (and
every failed string path) yields no integer, which the caller turns into a
skip. -/
def resolveMultipleAnswer (correct : PyVal) (cleanedOptions : List String) : Option Int :=
  match correct with
  | .str c =>
    let stripped := strStrip c
    if strIsDigit stripped then some (Int.ofNat (digitsToNat stripped))
    else
      match cleanedOptions.findIdx? (fun opt => strLower stripped = strLower opt) with
      | some i => some (Int.ofNat i)
      | Option.none =>
        if strStartsWith stripped "option" then
          let digits := String.mk (stripped.data.filter Char.isDigit)
          if digits = "" then Option.none else some (Int.ofNat (digitsToNat digits))
        else Option.none
  | .bool b => some (if b then 1 else 0)
  | .int n => some n
  | _ => Option.none

/-- The "정답:" explanation fallback (lines 99-103): used only when both
`correctAnswer` and `answer` came out as None; takes the text after the
first "정답:", strips it, and keeps its first line. -/
def answerFromExplanation (xs : List (String × PyVal)) : PyVal :=
  match dictGetD xs "explanation" .none with
  | .str ex =>
    match splitOnceTail ex "정답:" with
    | some rest => .str (firstLine (strStrip rest))
    | Option.none => .none
  | _ => .none

/-- `normalized.get("options") or []` (line 76). -/
def optionsValue (xs : List (String × PyVal)) : PyVal :=
  let v := dictGetD xs "options" .none
  if pyTruthy v then v else .list []

/-- `normalized.get("correctAnswer", normalized.get("answer"))` (line 98):
the `answer` key is consulted only when `correctAnswer` is absent. -/
def rawCorrect (xs : List (String × PyVal)) : PyVal :=
  match dictGet xs "correctAnswer" with
  | some v => v
  | Option.none => dictGetD xs "answer" .none

/-- Lines 98-103: when both answer fields came out None, fall back to the
"정답:" explanation scan. -/
def correctOrExplanation (xs : List (String × PyVal)) : PyVal :=
  match rawCorrect xs with
  | .none => answerFromExplanation xs
  | v => v

/-- Multiple-choice branch of `_normalize_question_data` (lines 75-130),
applied after the type has resolved to "multiple" and the text fields have
been cleaned: coerce options, require 2-4 of them, resolve the answer, and
require an in-range integer index. -/
def normalizeMultiple (xs : List (String × PyVal)) : Option (List (String × PyVal)) :=
  match optionsValue xs with
  | .list os =>
    let cleaned := cleanOptions os []
    if cleaned.length < 2 then Option.none
    else
      let xs2 := dictSet xs "options" (.list (cleaned.map .str))
      match resolveMultipleAnswer (correctOrExplanation xs2) cleaned with
      | Option.none => Option.none
      | some n =>
        if n < 0 ∨ (cleaned.length : Int) ≤ n then Option.none
        else some (dictSet xs2 "correctAnswer" (.int n))
  | _ => Option.none

/-- One candidate step of the short-answer loop (lines 142-151): skip
None, unwrap the head of a non-empty list (skipping again if that head is
None), stringify-and-strip, and accept a non-empty text. -/
def shortAnswerText : List PyVal → Option String
  | [] => Option.none
  | c :: rest =>
    match c with
    | .none => shortAnswerText rest
    | .list (x :: _) =>
      match x with
      | .none => shortAnswerText rest
      | v =>
        let t := strStrip (pyStr v)
        if t = "" then shortAnswerText rest else some t
    | v =>
      let t := strStrip (pyStr v)
      if t = "" then shortAnswerText rest else some t

/-- The resolved short answer text: candidates are `correctAnswer`,
`answer`, `shortAnswer`, `expectedAnswer`, with the stripped first line of
the explanation as a last resort (lines 133-155). -/
def shortAnswerResolved (xs : List (String × PyVal)) : Option String :=
  match shortAnswerText [dictGetD xs "correctAnswer" .none, dictGetD xs "answer" .none,
      dictGetD xs "shortAnswer" .none, dictGetD xs "expectedAnswer" .none] with
  | some t => some t
  | Option.none =>
    match dictGetD xs "explanation" .none with
    | .str ex =>
      let t := strStrip (firstLine ex)
      if t = "" then Option.none else some t
    | _ => Option.none

/-- Short-answer branch of `_normalize_question_data` (lines 132-161). -/
def normalizeShort (xs : List (String × PyVal)) : Option (List (String × PyVal)) :=
  match shortAnswerResolved xs with
  | some t => some (dictSet xs "correctAnswer" (.str t))
  | Option.none => Option.none

/-- The shared `if value is not None: normalized[k] = str-transform(value)`
pattern of `_normalize_question_data` lines 59-73. -/
def cleanTextField (xs : List (String × PyVal)) (k : String) (f : PyVal → String) :
    List (String × PyVal) :=
  match dictGetD xs k .none with
  | .none => xs
  | v => dictSet xs k (.str (f v))

/-- The `codeContext` truncation of lines 59-65: stringify, cut at
`_max_code_context_length = 800` characters, append an ellipsis when
cut. -/
def codeContextText (v : PyVal) : String :=
  let s := pyStr v
  if 800 < s.data.length then strSlice s 800 ++ "..." else s

/-- `QuizGenerator._normalize_question_data` (lines 36-163): returns the
normalized question dict, or failure to make the caller skip the
question.  The unused index argument carries the position used only for
log messages in the source. -/
def normalizeQuestionData (rawData : PyVal) (_idx : Nat) : Option PyVal :=
  match rawData with
  | .dict xs0 =>
    let typeVal := dictGetD xs0 "type" (.str "")
    let optionsVal := dictGetD xs0 "options" .none
    match resolveQuestionType typeVal optionsVal with
    | Option.none => Option.none
    | some qType =>
      let xs := dictSet xs0 "type" (.str qType)
      let xs := cleanTextField xs "codeContext" codeContextText
      let xs := cleanTextField xs "explanation" (fun v => strStrip (pyStr v))
      let xs := cleanTextField xs "question" (fun v => strStrip (pyStr v))
      if qType = "multiple" then (normalizeMultiple xs).map .dict
      else (normalizeShort xs).map .dict
  | _ => Option.none

/-! ## Quiz generation (QuizGenerator.generate_quiz, lines 278-365) -/

/-- Metadata attached to a generation result (the wall-clock
`generatedAt` stamp of the source is outside the embedding). -/
structure QuizMetadata where
  totalCommits : Nat
  requestedCount : Nat
  generatedCount : Nat
  difficulty : String
deriving DecidableEq

structure QuizGenerationResponse where
  questions : List QuizQuestionResponse
  metadata : QuizMetadata
deriving DecidableEq

/-- Lines 334-335 of `generate_quiz`: `q_data["id"] = f"q{idx + 1}"` when
the key is absent.  A non-dict entry passes through; every use it would
then be put to raises and skips the question, which the embedding realizes
through `normalizeQuestionData` rejecting non-dicts. -/
def withPositionalId (qd : PyVal) (idx : Nat) : PyVal :=
  match qd with
  | .dict xs =>
    if (dictGet xs "id").isNone then .dict (dictSet xs "id" (.str ("q" ++ toString (idx + 1))))
    else .dict xs
  | v => v

/-- The per-question loop of `generate_quiz` (lines 330-345): assign a
positional id when missing, normalize, validate; any failure in the body
is caught and the question skipped. -/
def processQuizQuestions : List PyVal → Nat → List QuizQuestionResponse
  | [], _ => []
  | qd :: rest, idx =>
    match (normalizeQuestionData (withPositionalId qd idx) idx).bind pydanticValidate with
    | some q => q :: processQuizQuestions rest (idx + 1)
    | Option.none => processQuizQuestions rest (idx + 1)

/-- `QuizGenerator.generate_quiz` downstream of the model call: takes the
parsed JSON response and the request parameters.  Every raised exception
is rewrapped by the outer handler into `ValueError("퀴즈 생성 중 오류 발생: ...")`;
responses that would fail while being indexed or iterated (a non-dict
response, a non-list `questions` value) surface through that same
handler. -/
def generateQuiz (numCommits questionCount : Nat) (difficulty : String)
    (responseData : PyVal) : Except String QuizGenerationResponse :=
  match responseData with
  | .dict xs =>
    match dictGet xs "questions" with
    | Option.none => .error "퀴즈 생성 중 오류 발생: Gemini API 응답에 'questions' 필드가 없습니다."
    | some (.list items) =>
      let questions := processQuizQuestions items 0
      if questions.isEmpty then .error "퀴즈 생성 중 오류 발생: 생성된 유효한 퀴즈가 없습니다."
      else .ok ⟨questions, ⟨numCommits, questionCount, questions.length, difficulty⟩⟩
    | some _ => .error "퀴즈 생성 중 오류 발생: 'questions' 값을 순회할 수 없습니다."
  | _ => .error "퀴즈 생성 중 오류 발생: 응답이 dict가 아닙니다."

/-! ## Combined learning session
(LearningSessionService.generate_learning_session, lines 173-248) -/

/-- The per-question loop of `generate_learning_session` (lines 215-229):
assign a positional id when missing, lower-case the raw type string (no
alias mapping, no option or answer checks), and hand the dict straight to
pydantic; a validation error skips the question. -/
def processSessionQuestions : List PyVal → Nat → List QuizQuestionResponse
  | [], _ => []
  | qd :: rest, idx =>
    match qd with
    | .dict xs =>
      let xs := if (dictGet xs "id").isNone then dictSet xs "id" (.str ("q" ++ toString (idx + 1))) else xs
      let qType := strLower (pyStr (dictGetD xs "type" (.str "multiple")))
      let xs := dictSet xs "type" (.str qType)
      match pydanticValidate (.dict xs) with
      | some q => q :: processSessionQuestions rest (idx + 1)
      | Option.none => processSessionQuestions rest (idx + 1)
    | _ => processSessionQuestions rest (idx + 1)

/-- `LearningSessionService.generate_learning_session` downstream of the
model call: the only required top-level key is "questions"; every other
key of the response (a "review" sibling included) is ignored, and the
questions that survive pydantic are returned unconditionally — there is no
empty-batch stop. -/
def generateLearningSession (numCommits questionCount : Nat) (difficulty : String)
    (responseData : PyVal) : Except String QuizGenerationResponse :=
  match responseData with
  | .dict xs =>
    match dictGet xs "questions" with
    | Option.none => .error "퀴즈 생성 중 오류 발생: 응답에 'questions' 필드가 없습니다."
    | some (.list items) =>
      let questions := processSessionQuestions items 0
      .ok ⟨questions, ⟨numCommits, questionCount, questions.length, difficulty⟩⟩
    | some _ => .error "퀴즈 생성 중 오류 발생: 'questions' 값을 순회할 수 없습니다."
  | _ => .error "퀴즈 생성 중 오류 발생: 응답이 dict가 아닙니다."

/-! ## Code-quality normalization (CodeAnalyzer._validate_quality_scores,
app/services/code_analyzer.py lines 185-208) -/

structure CodeQuality where
  readability : Int
  performance : Int
  security : Int
deriving DecidableEq

/-- The inner `clamp` helper: `int(value)` then clamp to [0, 100], with 75
substituted when the coercion raises. -/
def clampScore (value : PyVal) : Int :=
  match pyIntCoerce value with
  | some v => max 0 (min 100 v)
  | Option.none => 75

/-- `_validate_quality_scores`: each score read with default 75 and run
through `clamp`. -/
def validateQualityScores (quality : List (String × PyVal)) : CodeQuality :=
  ⟨clampScore (dictGetD quality "readability" (.int 75)),
   clampScore (dictGetD quality "performance" (.int 75)),
   clampScore (dictGetD quality "security" (.int 75))⟩

/-- The spec's description of code-quality normalization, written from its
words: each of the three scores is coerced to an int, a non-numeric or
missing value becomes the default 75, and the result is clamped to
[0, 100]. -/
def normalizeQualitySpec (quality : List (String × PyVal)) : CodeQuality :=
  let score := fun k =>
    match dictGet quality k with
    | Option.none => (75 : Int)
    | some v =>
      match pyIntCoerce v with
      | some n => max 0 (min 100 n)
      | Option.none => 75
  ⟨score "readability", score "performance", score "security"⟩

/-! ## Prompt builders: the per-commit file loops -/

/-- `FileDiff` / `CommitDiffInfo` (app/schemas/analysis.py). -/
structure CommitDiffInfo where
  filename : String
  status : String
  additions : Int
  deletions : Int
  patch : Option String
deriving DecidableEq

/-- `CommitDetailResponse` (app/schemas/analysis.py). -/
structure CommitDetailResponse where
  sha : String
  message : String
  author : String
  date : String
  filesChanged : Int
  additions : Int
  deletions : Int
  files : List CommitDiffInfo
deriving DecidableEq

/-- Patch truncation in `QuizGenerator._build_quiz_prompt` (lines
203-206): slice to `_max_patch_preview_length = 1200` characters and
append the marker only when the patch was longer. -/
def quizPatchPreview (patch : String) : String :=
  let pre := strSlice patch 1200
  if 1200 < patch.data.length then pre ++ "\n... (중략) ..." else pre

/-- One file's contribution to the quiz prompt (lines 200-207); an absent
or empty patch contributes no diff section (`if file.patch:`). -/
def quizFileBlock (f : CommitDiffInfo) : String :=
  "\n파일: " ++ f.filename ++ " (" ++ f.status ++ ")" ++
  "\n  +" ++ toString f.additions ++ " -" ++ toString f.deletions ++
  (match f.patch with
   | some p => if p = "" then "" else "\n  Diff:\n" ++ quizPatchPreview p
   | Option.none => "")

/-- The `commit.files[:5]` loop of the quiz prompt: at most five files are
rendered. -/
def quizCommitFileBlocks (c : CommitDetailResponse) : List String :=
  (c.files.take 5).map quizFileBlock

/-- The per-commit summary string of `_build_quiz_prompt` (lines
192-209). -/
def quizCommitInfo (c : CommitDetailResponse) : String :=
  "\n커밋 SHA: " ++ strSlice c.sha 7 ++
  "\n메시지: " ++ c.message ++
  "\n변경 통계: +" ++ toString c.additions ++ " -" ++ toString c.deletions ++
  " (" ++ toString c.filesChanged ++ "개 파일)\n\n변경된 파일:\n" ++
  String.join (quizCommitFileBlocks c)

/-- Patch truncation in `LearningSessionService._build_unified_prompt`
(lines 52-56): same 1200-character budget and marker as the quiz
builder. -/
def sessionPatchPreview (patch : String) : String :=
  let pre := strSlice patch 1200
  if 1200 < patch.data.length then pre ++ "\n... (중략) ..." else pre

def sessionFileBlock (f : CommitDiffInfo) : String :=
  "\n파일: " ++ f.filename ++ " (" ++ f.status ++ ")" ++
  "\n  +" ++ toString f.additions ++ " -" ++ toString f.deletions ++
  (match f.patch with
   | some p => if p = "" then "" else "\n  Diff:\n" ++ sessionPatchPreview p
   | Option.none => "")

/-- The `commit.files[:5]` loop of the unified session prompt. -/
def sessionCommitFileBlocks (c : CommitDetailResponse) : List String :=
  (c.files.take 5).map sessionFileBlock

/-- Patch truncation in `TopicExtractorService._build_topic_extraction_prompt`
(lines 43-47): 1200-character budget, same marker. -/
def topicPatchPreview (patch : String) : String :=
  let pre := strSlice patch 1200
  if 1200 < patch.data.length then pre ++ "\n... (중략) ..." else pre

def topicFileBlock (f : CommitDiffInfo) : String :=
  "\n파일: " ++ f.filename ++ " (" ++ f.status ++ ")" ++
  "\n  +" ++ toString f.additions ++ " -" ++ toString f.deletions ++
  (match f.patch with
   | some p => if p = "" then "" else "\n  Diff:\n" ++ topicPatchPreview p
   | Option.none => "")

/-- The `commit.files[:5]` loop of the topic-extraction prompt. -/
def topicCommitFileBlocks (c : CommitDetailResponse) : List String :=
  (c.files.take 5).map topicFileBlock

/-- Patch truncation in `TopicGenerator._build_topic_prompt`
(app/services/topic_generator.py lines 44-47): 1200-character budget. -/
def topicGenPatchPreview (patch : String) : String :=
  let pre := strSlice patch 1200
  if 1200 < patch.data.length then pre ++ "\n... (중략) ..." else pre

def topicGenFileBlock (f : CommitDiffInfo) : String :=
  "\n파일: " ++ f.filename ++ " (" ++ f.status ++ ")" ++
  "\n  +" ++ toString f.additions ++ " -" ++ toString f.deletions ++
  (match f.patch with
   | some p => if p = "" then "" else "\n  Diff:\n" ++ topicGenPatchPreview p
   | Option.none => "")

/-- The `commit.files[:5]` loop of the topic-generator prompt. -/
def topicGenCommitFileBlocks (c : CommitDetailResponse) : List String :=
  (c.files.take 5).map topicGenFileBlock

/-- Patch truncation in `CodeAnalyzer._build_analysis_prompt` (line 87):
`patch[:800] + ("..." if len(patch) > 800 else "")`. -/
def analyzerPatchPreview (patch : String) : String :=
  strSlice patch 800 ++ (if 800 < patch.data.length then "..." else "")

/-- One file's contribution to the analysis prompt (lines 80-90). -/
def analyzerFileBlock (f : CommitDiffInfo) : String :=
  "\n파일: " ++ f.filename ++ " (" ++ f.status ++ ")" ++
  "\n변경: +" ++ toString f.additions ++ " -" ++ toString f.deletions ++ "\n" ++
  (match f.patch with
   | some p => if p = "" then "" else "Diff:\n" ++ analyzerPatchPreview p
   | Option.none => "")

/-- The `commit.files[:10]` loop of the analysis prompt: up to TEN files
are rendered, unlike the five of the other builders. -/
def analyzerFilesInfo (c : CommitDetailResponse) : List String :=
  (c.files.take 10).map analyzerFileBlock

/-- `files_text = "\n\n".join(files_info)` (line 92). -/
def analyzerFilesText (c : CommitDetailResponse) : String :=
  String.intercalate "\n\n" (analyzerFilesInfo c)

/-! ## Review document generation
(ReviewGenerator._build_review_prompt, app/services/review_generator.py
lines 32-56) -/

/-- Value lookup on a question dict, `question.get(k)`. -/
def pyValGetD (q : PyVal) (k : String) (d : PyVal) : PyVal :=
  match q with
  | .dict xs => dictGetD xs k d
  | _ => d

/-- `user_answers.get(q_id)`: `user_answers` is a JSON object, so its keys
are strings and a non-string question id can never match. -/
def lookupUserAnswer (userAnswers : List (String × PyVal)) (qid : PyVal) : PyVal :=
  match qid with
  | .str s => dictGetD userAnswers s .none
  | _ => .none

/-- The correctness test of line 41:
`user_answer == correct_answer or str(user_answer) == str(correct_answer)`. -/
def isCorrectAnswer (userAnswers : List (String × PyVal)) (q : PyVal) : Bool :=
  let qid := pyValGetD q "id" .none
  let ua := lookupUserAnswer userAnswers qid
  let ca := pyValGetD q "correctAnswer" .none
  pyEq ua ca || (pyStr ua == pyStr ca)

/-- The `q_summary` dict built per question (lines 43-51). -/
def questionSummary (userAnswers : List (String × PyVal)) (q : PyVal) : PyVal :=
  .dict [("id", pyValGetD q "id" .none),
         ("question", pyValGetD q "question" .none),
         ("type", pyValGetD q "type" .none),
         ("user_answer", lookupUserAnswer userAnswers (pyValGetD q "id" .none)),
         ("correct_answer", pyValGetD q "correctAnswer" .none),
         ("explanation", pyValGetD q "explanation" .none),
         ("code_context", pyValGetD q "codeContext" .none)]

/-- The partition loop of `_build_review_prompt` (lines 33-56): every
question's summary is appended to `correct_questions` when the answer
comparison succeeds and to `wrong_questions` otherwise. -/
def reviewPartition (questions : List PyVal) (userAnswers : List (String × PyVal)) :
    List PyVal × List PyVal :=
  match questions with
  | [] => ([], [])
  | q :: rest =>
    let (cs, ws) := reviewPartition rest userAnswers
    if isCorrectAnswer userAnswers q then (questionSummary userAnswers q :: cs, ws)
    else (cs, questionSummary userAnswers q :: ws)

/-! ## JSON response handling (GeminiService.generate_json,
app/services/gemini_service.py lines 158-222) -/

/-- Fence stripping of lines 182-193: strip whitespace, cut a leading
"```json" or "```", cut a trailing "```", strip again. -/
def stripFences (t : String) : String :=
  let c := strStrip t
  let c :=
    if strStartsWith c "```json" then strDrop c 7
    else if strStartsWith c "```" then strDrop c 3
    else c
  let c := if strEndsWith c "```" then strDropRight c 3 else c
  strStrip c

/-- `generate_json` downstream of the model call, parameterized by the
external `json.loads` (as `decode`, whose error is `str(e)`) and
`json_repair.repair_json` (as `repairFn`): one strict decode of the
fence-stripped body, one repair-and-redecode on failure, and a final
`ValueError` whose message wraps only the original decode error. -/
def generateJson {J : Type} (decode : String → Except String J)
    (repairFn : String → String) (responseText : String) : Except String J :=
  let cleaned := stripFences responseText
  match decode cleaned with
  | .ok j => .ok j
  | .error e =>
    match decode (repairFn cleaned) with
    | .ok j => .ok j
    | .error _ => .error ("Gemini API 응답을 JSON으로 파싱할 수 없습니다: " ++ e)

/-! ## Stated invariants and concrete test inputs -/

/-- The multiple-choice invariant of the data model: a `multiple` question
carries 2 to 4 options and an integer `correctAnswer` indexing into
them. -/
def MultipleChoiceOk (q : QuizQuestionResponse) : Prop :=
  q.type = "multiple" →
    ∃ opts, q.options = some opts ∧ 2 ≤ opts.length ∧ opts.length ≤ 4 ∧
      ∃ n : Int, q.correctAnswer = Sum.inl n ∧ 0 ≤ n ∧ n < (opts.length : Int)

/-- The normalized `correctAnswer` a raw question dict ends up with. -/
def normalizedAnswer (v : PyVal) : Option PyVal :=
  (normalizeQuestionData v 0).map (fun nd => pyValGetD nd "correctAnswer" .none)

/-- Raw multiple-choice question with options A-D and the given raw
`correctAnswer`. -/
def rawABCD (ca : PyVal) : PyVal :=
  .dict [("id", .str "q1"), ("type", .str "multiple"), ("question", .str "Which one?"),
         ("options", .list [.str "A", .str "B", .str "C", .str "D"]), ("correctAnswer", ca)]

/-- Raw multiple-choice question with options A-D, no answer field at all,
and an explanation carrying a "정답:" marker. -/
def rawABCDFromExplanation : PyVal :=
  .dict [("id", .str "q1"), ("type", .str "multiple"), ("question", .str "Which one?"),
         ("options", .list [.str "A", .str "B", .str "C", .str "D"]),
         ("explanation", .str "생각해 보면 정답: B\n왜냐하면")]

/-- Raw multiple-choice question whose `correctAnswer` "E" matches
nothing, while the explanation still carries a "정답:" marker: the source
skips it without consulting the explanation. -/
def rawABCDUnmatched : PyVal :=
  .dict [("id", .str "q1"), ("type", .str "multiple"), ("question", .str "Which one?"),
         ("options", .list [.str "A", .str "B", .str "C", .str "D"]),
         ("correctAnswer", .str "E"), ("explanation", .str "정답: C")]

/-- Session response carrying one schema-valid multiple question with a
single option and an out-of-range answer index. -/
def sessionRespBadQuestion : PyVal :=
  .dict [("questions", .list [.dict [("type", .str "multiple"), ("question", .str "Q"),
         ("options", .list [.str "A"]), ("correctAnswer", .int 5)]])]

/-- Session response whose only question fails pydantic validation. -/
def sessionRespAllMalformed : PyVal :=
  .dict [("questions", .list [.dict [("type", .str "multiple")]])]

/-- A fully valid raw question used for success-path witnesses. -/
def rawValidQuestion : PyVal :=
  .dict [("id", .str "q1"), ("type", .str "multiple"), ("question", .str "Which one?"),
         ("options", .list [.str "A", .str "B", .str "C", .str "D"]),
         ("correctAnswer", .int 1), ("explanation", .str "because")]

/-- A second valid raw question (no id, short form). -/
def rawValidShort : PyVal :=
  .dict [("type", .str "short"), ("question", .str "Say it"), ("answer", .str "yes")]

/-- Model response carrying one valid question and nothing else — in
particular no review payload under a sibling key. -/
def sessionRespQuizOnly : PyVal :=
  .dict [("questions", .list [rawValidQuestion])]

/-- Model response carrying a review payload next to the questions; the
session service never reads it. -/
def sessionRespWithReview : PyVal :=
  .dict [("questions", .list [rawValidQuestion]),
         ("review", .dict [("summary", .str "nice"), ("suggestions", .list [.str "s1"])])]

/-- Quiz response with two valid questions, for the no-truncation
witness. -/
def quizRespTwoValid : PyVal :=
  .dict [("questions", .list [rawValidQuestion, rawValidShort])]

/-- The validated record `rawValidQuestion` turns into. -/
def validatedQ1 : QuizQuestionResponse :=
  ⟨"q1", "multiple", "Which one?", Option.none, some ["A", "B", "C", "D"], Sum.inl 1, some "because"⟩

/-- The validated record `rawValidShort` turns into (positional id, answer
taken from the `answer` alias). -/
def validatedQ2 : QuizQuestionResponse :=
  ⟨"q2", "short", "Say it", Option.none, Option.none, Sum.inr "yes", Option.none⟩

/-- The full result of `generate_quiz` on `quizRespTwoValid` with one
question requested. -/
def quizTwoValidResult : QuizGenerationResponse :=
  ⟨[validatedQ1, validatedQ2], ⟨1, 1, 2, "medium"⟩⟩

/-- The schema-valid but invariant-violating record the session service
returns for `sessionRespBadQuestion`. -/
def sessionBadValidated : QuizQuestionResponse :=
  ⟨"q1", "multiple", "Q", Option.none, some ["A"], Sum.inl 5, Option.none⟩

/-- The quality dict of the spec's clamping example. -/
def qualityExample : List (String × PyVal) :=
  [("readability", .int 150), ("performance", .int (-5)), ("security", .str "abc")]

/-- A commit touching six files, to probe the per-commit file budget. -/
def commitSixFiles : CommitDetailResponse :=
  ⟨"abc1234def", "feat: six files", "dev", "2025-01-09", 6, 12, 6,
   [⟨"f1.py", "modified", 2, 1, some "p1"⟩, ⟨"f2.py", "added", 2, 1, some "p2"⟩,
    ⟨"f3.py", "modified", 2, 1, some "p3"⟩, ⟨"f4.py", "removed", 2, 1, some "p4"⟩,
    ⟨"f5.py", "modified", 2, 1, some "p5"⟩, ⟨"f6.py", "modified", 2, 1, some "p6"⟩]⟩

/-- Stand-in for `json.loads` on the malformed inputs of the diagnostics
scenario: strict decoding fails with the message Python's decoder reports
for them. -/
def loadsAlwaysFails : String → Except String Unit :=
  fun _ => .error "Expecting value: line 1 column 1 (char 0)"

/-- Stand-in for `json_repair.repair_json` producing a repaired text that
still fails to decode. -/
def repairCloseBrace : String → String :=
  fun s => s ++ "\x7d"

/-- The malformed response text of the diagnostics scenario. -/
def badJsonText : String := "\x7bbad"

/-- The message of the ValueError raised after both decode attempts
fail. -/
def malformedErrMsg : String :=
  "Gemini API 응답을 JSON으로 파싱할 수 없습니다: Expecting value: line 1 column 1 (char 0)"

/-- Stand-in for `json.loads` succeeding on the fenced example's body. -/
def loadsInnerObject : String → Except String Nat :=
  fun s => if s = "\x7b\"a\": 1\x7d" then .ok 1 else .error "Expecting value: line 1 column 1 (char 0)"

/-! # Supporting lemmas -/

theorem dictGet_dictSet_self (xs : List (String × PyVal)) (k : String) (v : PyVal) :
    dictGet (dictSet xs k v) k = some v := by
  induction xs with
  | nil => simp [dictSet, dictGet]
  | cons p rest ih =>
    obtain ⟨k', v'⟩ := p
    by_cases h : k' = k
    · simp [dictSet, dictGet, h]
    · simp [dictSet, dictGet, h, ih]

theorem dictGet_dictSet_ne (xs : List (String × PyVal)) (k k' : String) (v : PyVal)
    (h : k ≠ k') : dictGet (dictSet xs k v) k' = dictGet xs k' := by
  induction xs with
  | nil => simp [dictSet, dictGet, h]
  | cons p rest ih =>
    obtain ⟨a, b⟩ := p
    by_cases ha : a = k
    · subst ha
      simp [dictSet, dictGet, h]
    · simp only [dictSet, if_neg ha]
      by_cases ha' : a = k'
      · simp [dictGet, ha']
      · simp [dictGet, ha', ih]

theorem dictGet_cleanTextField_ne (xs : List (String × PyVal)) (k k' : String)
    (f : PyVal → String) (h : k ≠ k') :
    dictGet (cleanTextField xs k f) k' = dictGet xs k' := by
  unfold cleanTextField
  split
  · rfl
  · exact dictGet_dictSet_ne xs k k' _ h

theorem strListM_map_str (l : List String) : strListM (l.map PyVal.str) = some l := by
  induction l with
  | nil => rfl
  | cons s rest ih => simp [strListM, pyElemStr, ih]

theorem cleanOptions_length_le (os : List PyVal) (acc : List String) (h : acc.length ≤ 3) :
    (cleanOptions os acc).length ≤ 4 := by
  induction os generalizing acc with
  | nil => simpa [cleanOptions] using by omega
  | cons o rest ih =>
    have hstep : ∀ t : String,
        (if 4 ≤ (if t = "" then acc else acc ++ [t]).length
         then (if t = "" then acc else acc ++ [t])
         else cleanOptions rest (if t = "" then acc else acc ++ [t])).length ≤ 4 := by
      intro t
      by_cases ht : t = ""
      · simp only [if_pos ht]
        split
        · omega
        · exact ih _ h
      · simp only [if_neg ht]
        have hlen : (acc ++ [t]).length = acc.length + 1 := by simp
        split
        · omega
        · rename_i hlt
          exact ih _ (by omega)
    cases o with
    | none => simpa [cleanOptions] using ih acc h
    | bool b => simpa [cleanOptions] using hstep _
    | int n => simpa [cleanOptions] using hstep _
    | str s => simpa [cleanOptions] using hstep _
    | list xs => simpa [cleanOptions] using hstep _
    | dict xs => simpa [cleanOptions] using hstep _

theorem pydanticValidate_fields (xs : List (String × PyVal)) (q : QuizQuestionResponse)
    (h : pydanticValidate (.dict xs) = some q) :
    pyFieldStr (dictGet xs "id") = some q.id ∧
    pyFieldType (dictGet xs "type") = some q.type ∧
    pyFieldStr (dictGet xs "question") = some q.question ∧
    pyFieldOptStrList (dictGet xs "options") = some q.options ∧
    pyFieldAnswer (dictGet xs "correctAnswer") = some q.correctAnswer := by
  simp only [pydanticValidate, Option.bind_eq_some, Option.pure_def,
    Option.some.injEq, bind, Option.bind_eq_some] at h
  obtain ⟨i, hi, t, ht, qq, hq, cc, hcc, opts, hopts, ca, hca, ex, hex, hEq⟩ := h
  subst hEq
  exact ⟨hi, ht, hq, hopts, hca⟩

theorem acceptQuestionType_cases (x s : String) (h : acceptQuestionType x = some s) :
    s = "multiple" ∨ s = "short" := by
  unfold acceptQuestionType at h
  split at h
  · rename_i hc
    cases h
    exact hc
  · cases h

theorem resolveQuestionType_cases (t o : PyVal) (s : String)
    (h : resolveQuestionType t o = some s) : s = "multiple" ∨ s = "short" :=
  acceptQuestionType_cases _ s h

theorem normalizeShort_pres (xs nd : List (String × PyVal))
    (h : normalizeShort xs = some nd) (k : String) (hk : k ≠ "correctAnswer") :
    dictGet nd k = dictGet xs k := by
  unfold normalizeShort at h
  split at h
  · cases h
    exact dictGet_dictSet_ne xs "correctAnswer" k _ (fun he => hk he.symm)
  · cases h

theorem normalizeMultiple_sound (xs nd : List (String × PyVal))
    (h : normalizeMultiple xs = some nd) :
    ∃ (cleaned : List String) (n : Int),
      dictGet nd "options" = some (.list (cleaned.map .str)) ∧
      2 ≤ cleaned.length ∧ cleaned.length ≤ 4 ∧
      dictGet nd "correctAnswer" = some (.int n) ∧ 0 ≤ n ∧ n < (cleaned.length : Int) ∧
      (∀ k, k ≠ "options" → k ≠ "correctAnswer" → dictGet nd k = dictGet xs k) := by
  unfold normalizeMultiple at h
  split at h
  case _ os heq =>
    by_cases hlen : (cleanOptions os []).length < 2
    · rw [if_pos hlen] at h
      cases h
    · rw [if_neg hlen] at h
      simp only [] at h
      split at h
      · cases h
      case _ n hres =>
        split at h
        · cases h
        case _ hrange =>
          cases h
          push_neg at hrange
          refine ⟨cleanOptions os [], n, ?_, by omega, cleanOptions_length_le os [] (by simp), ?_, hrange.1, hrange.2, ?_⟩
          · rw [dictGet_dictSet_ne _ "correctAnswer" "options" _ (by decide)]
            exact dictGet_dictSet_self _ _ _
          · exact dictGet_dictSet_self _ _ _
          · intro k hko hkc
            rw [dictGet_dictSet_ne _ "correctAnswer" k _ (fun he => hkc he.symm)]
            exact dictGet_dictSet_ne _ "options" k _ (fun he => hko he.symm)
  · cases h

theorem normalized_validated_ok (v : PyVal) (i : Nat) (nd : PyVal)
    (q : QuizQuestionResponse) (hn : normalizeQuestionData v i = some nd)
    (hv : pydanticValidate nd = some q) : MultipleChoiceOk q := by
  intro hq
  unfold normalizeQuestionData at hn
  match v with
  | .dict xs0 =>
    simp only [] at hn
    split at hn
    · cases hn
    case _ qType hres =>
      have hcase := resolveQuestionType_cases _ _ _ hres
      by_cases hmul : qType = "multiple"
      · rw [if_pos hmul] at hn
        rw [Option.map_eq_some'] at hn
        obtain ⟨nd', hnm, rfl⟩ := hn
        obtain ⟨cleaned, n, hopts, h2, h4, hca, h0, hlt, _⟩ := normalizeMultiple_sound _ _ hnm
        obtain ⟨_, _, _, hoptsv, hcav⟩ := pydanticValidate_fields _ _ hv
        rw [hopts] at hoptsv
        rw [hca] at hcav
        simp only [pyFieldOptStrList, strListM_map_str, Option.map_some', Option.some.injEq] at hoptsv
        simp only [pyFieldAnswer, Option.some.injEq] at hcav
        exact ⟨cleaned, hoptsv.symm, h2, h4, n, hcav.symm, h0, hlt⟩
      · have hsh : qType = "short" := by
          rcases hcase with hc | hc
          · exact absurd hc hmul
          · exact hc
        rw [if_neg hmul] at hn
        rw [Option.map_eq_some'] at hn
        obtain ⟨nd', hns, rfl⟩ := hn
        obtain ⟨_, htypev, _, _, _⟩ := pydanticValidate_fields _ _ hv
        rw [normalizeShort_pres _ _ hns "type" (by decide)] at htypev
        rw [dictGet_cleanTextField_ne _ "question" "type" _ (by decide),
            dictGet_cleanTextField_ne _ "explanation" "type" _ (by decide),
            dictGet_cleanTextField_ne _ "codeContext" "type" _ (by decide),
            dictGet_dictSet_self] at htypev
        simp only [pyFieldType, hsh] at htypev
        split at htypev
        · injection htypev with he
          exact absurd (he.trans hq) (by decide)
        · cases htypev

theorem processQuizQuestions_ok (items : List PyVal) (idx : Nat)
    (q : QuizQuestionResponse) (h : q ∈ processQuizQuestions items idx) :
    MultipleChoiceOk q := by
  induction items generalizing idx with
  | nil => simp [processQuizQuestions] at h
  | cons qd rest ih =>
    rw [processQuizQuestions] at h
    split at h
    case _ q' hb =>
      rw [Option.bind_eq_some] at hb
      obtain ⟨nd, hn, hv⟩ := hb
      rcases List.mem_cons.mp h with rfl | htail
      · exact normalized_validated_ok _ _ _ _ hn hv
      · exact ih _ htail
    case _ hb =>
      exact ih _ h

/-! # Claim theorems -/

/-- C1 (amended): every result of `QuizGenerator.generate_quiz` satisfies
the multiple-choice invariant — each question of type "multiple" carries 2
to 4 options and an integer `correctAnswer` with
`0 <= correctAnswer < len(options)`.  The invariant is enforced by the
normalization pass of `generate_quiz`; `generate_learning_session` skips
that pass, so the amendment drops it from the claim's scope (see the
counterexample). -/
theorem generateQuiz_multiple_invariant (nc qc : Nat) (d : String) (resp : PyVal)
    (r : QuizGenerationResponse) (h : generateQuiz nc qc d resp = .ok r) :
    ∀ q ∈ r.questions, MultipleChoiceOk q := by
  unfold generateQuiz at h
  split at h
  case _ xs =>
    split at h
    · exact Except.noConfusion h
    case _ items hget =>
      simp only [] at h
      split at h
      · exact Except.noConfusion h
      · cases h
        intro q hq
        exact processQuizQuestions_ok _ _ _ hq
    case _ hne => exact Except.noConfusion h
  case _ => exact Except.noConfusion h

/-- Witness for C1: the concrete two-question generation run satisfies the
invariant's conclusion on its multiple-choice question. -/
theorem generateQuiz_multiple_invariant_witness :
    ∃ opts, validatedQ1.options = some opts ∧ 2 ≤ opts.length ∧ opts.length ≤ 4 ∧
      ∃ n : Int, validatedQ1.correctAnswer = Sum.inl n ∧ 0 ≤ n ∧ n < (opts.length : Int) :=
  generateQuiz_multiple_invariant 1 1 "medium" quizRespTwoValid quizTwoValidResult rfl
    validatedQ1 (by simp [quizTwoValidResult]) rfl

/-- Counterexample for C1: `generate_learning_session` happily returns a
"multiple" question with a single option and the out-of-range answer index
5, because its path only runs pydantic shape validation. -/
theorem learningSession_breaks_multiple_invariant :
    generateLearningSession 1 5 "medium" sessionRespBadQuestion =
      .ok ⟨[sessionBadValidated], ⟨1, 5, 1, "medium"⟩⟩ ∧
    ¬ MultipleChoiceOk sessionBadValidated := by
  refine ⟨rfl, fun hOk => ?_⟩
  obtain ⟨opts, hopts, h2, _, n, hca, h0, hlt⟩ := hOk rfl
  have he : opts = ["A"] := by
    have : some ["A"] = some opts := hopts
    injection this with h
    exact h.symm
  subst he
  have hn : n = 5 := by
    have : Sum.inl (5 : Int) = (Sum.inl n : Sum Int String) := hca
    injection this with h
    exact h.symm
  subst hn
  simp at hlt

/-- C2: the session operation is quiz-only — a single model call whose
response needs nothing but the "questions" key.  A response without any
review payload succeeds, and a review payload sitting next to the
questions is ignored: the returned value carries questions and metadata
only, while the endpoint consuming it indexes `result["quiz"]` and
`result["review"]`. -/
theorem learningSession_quiz_only :
    generateLearningSession 2 5 "medium" sessionRespQuizOnly =
      .ok ⟨[validatedQ1], ⟨2, 5, 1, "medium"⟩⟩ ∧
    generateLearningSession 2 5 "medium" sessionRespWithReview =
      .ok ⟨[validatedQ1], ⟨2, 5, 1, "medium"⟩⟩ :=
  ⟨rfl, rfl⟩

/-- C5 (amended): `generate_quiz` never returns an empty questions list —
a batch with zero survivors raises instead.  The same does not hold for
`generate_learning_session` (see the counterexample), so the amendment
restricts the claim to `generate_quiz`. -/
theorem generateQuiz_zero_survivors_raise :
    (∀ (nc qc : Nat) (d : String) (resp : PyVal) (r : QuizGenerationResponse),
        generateQuiz nc qc d resp = .ok r → r.questions ≠ []) ∧
    (∀ (nc qc : Nat) (d : String) (xs : List (String × PyVal)) (items : List PyVal),
        dictGet xs "questions" = some (.list items) →
        processQuizQuestions items 0 = [] →
        generateQuiz nc qc d (.dict xs) =
          .error "퀴즈 생성 중 오류 발생: 생성된 유효한 퀴즈가 없습니다.") := by
  constructor
  · intro nc qc d resp r h
    unfold generateQuiz at h
    split at h
    case _ xs =>
      split at h
      · exact Except.noConfusion h
      case _ items hget =>
        simp only [] at h
        split at h
        · exact Except.noConfusion h
        · rename_i hne
          cases h
          simpa using hne
      case _ => exact Except.noConfusion h
    case _ => exact Except.noConfusion h
  · intro nc qc d xs items hget hempty
    simp [generateQuiz, hget, hempty]

/-- Witness for C5: a response whose only question is valid yields a
non-empty batch, and a response whose only question is malformed hits the
zero-survivor error. -/
theorem generateQuiz_zero_survivors_raise_witness :
    quizTwoValidResult.questions ≠ [] ∧
    generateQuiz 1 5 "medium" sessionRespAllMalformed =
      .error "퀴즈 생성 중 오류 발생: 생성된 유효한 퀴즈가 없습니다." :=
  ⟨generateQuiz_zero_survivors_raise.1 1 1 "medium" quizRespTwoValid quizTwoValidResult rfl,
   generateQuiz_zero_survivors_raise.2 1 5 "medium"
     [("questions", .list [.dict [("type", .str "multiple")]])]
     [.dict [("type", .str "multiple")]] rfl rfl⟩

/-- Counterexample for C5: the session service returns an `.ok` result
whose questions list is empty when every question is malformed, instead of
raising. -/
theorem learningSession_returns_empty_batch :
    generateLearningSession 1 5 "medium" sessionRespAllMalformed =
      .ok ⟨[], ⟨1, 5, 0, "medium"⟩⟩ := rfl

/-- C10: `generate_quiz` keeps every survivor of normalization — the
result's questions are exactly the processed list, `generatedCount` always
equals the number returned, `requestedCount` echoes the request, and a
batch larger than the request makes `generatedCount` exceed
`requestedCount`: nothing is truncated to the requested count. -/
theorem generateQuiz_no_truncation (nc qc : Nat) (d : String) (resp : PyVal)
    (r : QuizGenerationResponse) (h : generateQuiz nc qc d resp = .ok r) :
    r.metadata.generatedCount = r.questions.length ∧
    r.metadata.requestedCount = qc ∧
    (∀ xs items, resp = .dict xs → dictGet xs "questions" = some (.list items) →
        r.questions = processQuizQuestions items 0) ∧
    (qc < r.questions.length → r.metadata.requestedCount < r.metadata.generatedCount) := by
  unfold generateQuiz at h
  split at h
  case _ xs =>
    split at h
    · exact Except.noConfusion h
    case _ items hget =>
      simp only [] at h
      split at h
      · exact Except.noConfusion h
      · cases h
        refine ⟨rfl, rfl, ?_, ?_⟩
        · intro xs' items' heq hget'
          cases heq
          rw [hget] at hget'
          injection hget' with h1
          injection h1 with h2
          rw [h2]
        · intro hlen
          simpa using hlen
    case _ hne => exact Except.noConfusion h
  case _ => exact Except.noConfusion h

/-- Witness for C10: two survivors against a request for one — the result
keeps both and reports 2 generated versus 1 requested. -/
theorem generateQuiz_no_truncation_witness :
    quizTwoValidResult.metadata.generatedCount = quizTwoValidResult.questions.length ∧
    quizTwoValidResult.metadata.requestedCount = 1 ∧
    quizTwoValidResult.metadata.requestedCount < quizTwoValidResult.metadata.generatedCount := by
  have H := generateQuiz_no_truncation 1 1 "medium" quizRespTwoValid quizTwoValidResult rfl
  exact ⟨H.1, H.2.1, H.2.2.2 (by decide)⟩

/-- C6: `_validate_quality_scores` behaves exactly as specified — each of
the three scores is coerced to an int clamped to [0, 100], with 75
substituted for a missing or non-coercible value — and the spec's example
`{readability: 150, performance: -5, security: "abc"}` yields
`{100, 0, 75}`. -/
theorem validateQualityScores_spec :
    (∀ qd, validateQualityScores qd = normalizeQualitySpec qd) ∧
    validateQualityScores qualityExample = ⟨100, 0, 75⟩ := by
  constructor
  · intro qd
    have hfield : ∀ k, clampScore (dictGetD qd k (.int 75)) =
        (match dictGet qd k with
         | Option.none => (75 : Int)
         | some v =>
           match pyIntCoerce v with
           | some n => max 0 (min 100 n)
           | Option.none => 75) := by
      intro k
      unfold dictGetD clampScore
      cases dictGet qd k with
      | none => rfl
      | some v => rfl
    unfold validateQualityScores normalizeQualitySpec
    rw [hfield, hfield, hfield]
  · rfl

/-- C7: type resolution of `_normalize_question_data` — the raw type is
stripped and lower-cased; the aliases objective/multiple_choice/mcq map to
"multiple" and subjective/descriptive/open_ended/short_answer map to
"short"; a missing (or empty) type defaults to "multiple" when `options`
is truthy and "short" otherwise; an unknown type such as "essay" makes the
normalizer skip the question (return failure) rather than raise. -/
theorem resolveQuestionType_spec :
    (∀ o, resolveQuestionType (.str "MCQ") o = some "multiple") ∧
    (∀ o, resolveQuestionType (.str "open_ended") o = some "short") ∧
    (∀ o s, (strLower (strStrip s) = "objective" ∨ strLower (strStrip s) = "multiple_choice" ∨
        strLower (strStrip s) = "mcq") → resolveQuestionType (.str s) o = some "multiple") ∧
    (∀ o s, (strLower (strStrip s) = "subjective" ∨ strLower (strStrip s) = "descriptive" ∨
        strLower (strStrip s) = "open_ended" ∨ strLower (strStrip s) = "short_answer") →
        resolveQuestionType (.str s) o = some "short") ∧
    (∀ o, pyTruthy o = true → resolveQuestionType (.str "") o = some "multiple") ∧
    (∀ o, pyTruthy o = false → resolveQuestionType (.str "") o = some "short") ∧
    (∀ xs, dictGet xs "type" = Option.none → dictGetD xs "type" (.str "") = .str "") ∧
    (∀ xs i, dictGetD xs "type" (.str "") = .str "essay" →
        normalizeQuestionData (.dict xs) i = Option.none) := by
  refine ⟨fun o => rfl, fun o => rfl, ?_, ?_, ?_, ?_, ?_, ?_⟩
  · intro o s hs
    simp only [resolveQuestionType, pyStr]
    rcases hs with hs | hs | hs <;> rw [hs] <;> rfl
  · intro o s hs
    simp only [resolveQuestionType, pyStr]
    rcases hs with hs | hs | hs | hs <;> rw [hs] <;> rfl
  · intro o hp
    simp only [resolveQuestionType, pyStr, hp]
    rfl
  · intro o hp
    simp only [resolveQuestionType, pyStr, hp]
    rfl
  · intro xs h
    unfold dictGetD
    rw [h]
  · intro xs i h
    have he : ∀ o, resolveQuestionType (.str "essay") o = Option.none := fun _ => rfl
    simp only [normalizeQuestionData, h, he]

/-- Witness for C7: concrete instances of the alias, defaulting and
rejection branches. -/
theorem resolveQuestionType_spec_witness :
    resolveQuestionType (.str " Multiple_Choice ") (.list []) = some "multiple" ∧
    resolveQuestionType (.str "Short_Answer") .none = some "short" ∧
    resolveQuestionType (.str "") (.list [.str "A", .str "B"]) = some "multiple" ∧
    resolveQuestionType (.str "") (.list []) = some "short" ∧
    dictGetD [("question", .str "w")] "type" (.str "") = .str "" ∧
    normalizeQuestionData (.dict [("type", .str "essay"), ("question", .str "w")]) 0 = Option.none :=
  ⟨resolveQuestionType_spec.2.2.1 (.list []) " Multiple_Choice " (Or.inr (Or.inl rfl)),
   resolveQuestionType_spec.2.2.2.1 .none "Short_Answer" (Or.inr (Or.inr (Or.inr rfl))),
   resolveQuestionType_spec.2.2.2.2.1 (.list [.str "A", .str "B"]) rfl,
   resolveQuestionType_spec.2.2.2.2.2.1 (.list []) rfl,
   resolveQuestionType_spec.2.2.2.2.2.2.1 [("question", .str "w")] rfl,
   resolveQuestionType_spec.2.2.2.2.2.2.2 [("type", .str "essay"), ("question", .str "w")] 0 rfl⟩

/-- Counterexample for C4: with options ["A","B","C","D"], the raw answer
"option 3" resolves to index 3, not 2 — the digits of "option N" are used
directly as the index, with no 1-based offset. -/
theorem optionN_counterexample :
    normalizedAnswer (rawABCD (.str "option 3")) = some (.int 3) ∧
    normalizedAnswer (rawABCD (.str "option 3")) ≠ some (.int 2) := by
  refine ⟨rfl, fun hc => ?_⟩
  have h3 : normalizedAnswer (rawABCD (.str "option 3")) = some (.int 3) := rfl
  rw [h3] at hc
  injection hc with h1
  injection h1 with h2
  exact absurd h2 (by decide)

/-- C4 (amended): a string `correctAnswer` resolves by first parsing a
digit literal, else a case-insensitive exact match against the option
texts, else — for strings starting with "option" — the concatenated
digits used directly as the index; the "정답:" explanation scan runs only
when the `correctAnswer`/`answer` fields are absent (or None), not as a
fallback after a failed string.  Concretely, for options ["A","B","C","D"]:
raw "B" resolves to 1, raw "option 3" resolves to 3 (not 2), raw "E" is
skipped even though the explanation carries a "정답:" marker, and a
question without any answer field resolves from its explanation's "정답:"
marker. -/
theorem resolveMultipleAnswer_spec :
    normalizedAnswer (rawABCD (.str "B")) = some (.int 1) ∧
    normalizedAnswer (rawABCD (.str "option 3")) = some (.int 3) ∧
    normalizeQuestionData rawABCDUnmatched 0 = Option.none ∧
    normalizedAnswer rawABCDFromExplanation = some (.int 1) ∧
    (∀ (s : String) (opts : List String), strIsDigit (strStrip s) = true →
        resolveMultipleAnswer (.str s) opts = some (Int.ofNat (digitsToNat (strStrip s)))) ∧
    (∀ (s : String) (opts : List String) (i : Nat), strIsDigit (strStrip s) = false →
        opts.findIdx? (fun opt => strLower (strStrip s) = strLower opt) = some i →
        resolveMultipleAnswer (.str s) opts = some (Int.ofNat i)) ∧
    (∀ (s : String) (opts : List String), strIsDigit (strStrip s) = false →
        opts.findIdx? (fun opt => strLower (strStrip s) = strLower opt) = Option.none →
        strStartsWith (strStrip s) "option" = true →
        String.mk ((strStrip s).data.filter Char.isDigit) ≠ "" →
        resolveMultipleAnswer (.str s) opts =
          some (Int.ofNat (digitsToNat (String.mk ((strStrip s).data.filter Char.isDigit))))) := by
  refine ⟨rfl, rfl, rfl, rfl, ?_, ?_, ?_⟩
  · intro s opts hd
    simp only [resolveMultipleAnswer, hd, if_true]
  · intro s opts i hd hf
    simp only [resolveMultipleAnswer, hd, hf, Bool.false_eq_true, if_false]
  · intro s opts hd hf hsw hne
    simp only [resolveMultipleAnswer, hd, hf, hsw, Bool.false_eq_true, if_false, if_true,
      if_neg hne]

/-- Witness for C4: the three string-resolution branches at concrete
inputs. -/
theorem resolveMultipleAnswer_spec_witness :
    resolveMultipleAnswer (.str " 2 ") ["A", "B", "C"] = some (Int.ofNat 2) ∧
    resolveMultipleAnswer (.str "b") ["A", "B", "C"] = some (Int.ofNat 1) ∧
    resolveMultipleAnswer (.str "option 1") ["A", "B", "C"] = some (Int.ofNat 1) :=
  ⟨resolveMultipleAnswer_spec.2.2.2.2.1 " 2 " ["A", "B", "C"] rfl,
   resolveMultipleAnswer_spec.2.2.2.2.2.1 "b" ["A", "B", "C"] 1 rfl rfl,
   resolveMultipleAnswer_spec.2.2.2.2.2.2 "option 1" ["A", "B", "C"] rfl rfl rfl
     (by decide)⟩

set_option maxRecDepth 4000 in
/-- Counterexample for C8: a six-file commit makes the code-analysis
prompt embed six file sections — the sixth file's name really appears in
the joined files text — so "at most 5 files per commit" fails for
`CodeAnalyzer._build_analysis_prompt`. -/
theorem analyzerEmbedsSixFiles :
    (analyzerFilesInfo commitSixFiles).length = 6 ∧
    ¬ (analyzerFilesInfo commitSixFiles).length ≤ 5 ∧
    strContains (analyzerFilesText commitSixFiles) "f6.py" = true := by
  refine ⟨rfl, by decide, by decide⟩

/-- C8 (amended): patch truncation behaves as claimed in every builder —
the quiz, unified-session, topic-extraction and topic-generation builders
cut each patch at 1200 characters and the analysis builder at 800, a
truncation marker is appended exactly when the patch was cut, and the
quiz/session/topic builders embed at most 5 files per commit — but the
code-analysis builder embeds up to 10 files per commit, not 5. -/
theorem promptBuilders_truncation :
    (∀ c, (quizCommitFileBlocks c).length ≤ 5) ∧
    (∀ c, (sessionCommitFileBlocks c).length ≤ 5) ∧
    (∀ c, (topicCommitFileBlocks c).length ≤ 5) ∧
    (∀ c, (topicGenCommitFileBlocks c).length ≤ 5) ∧
    (∀ c, (analyzerFilesInfo c).length ≤ 10) ∧
    (∀ p : String, p.length ≤ 1200 → quizPatchPreview p = p) ∧
    (∀ p : String, 1200 < p.length →
        quizPatchPreview p = strSlice p 1200 ++ "\n... (중략) ...") ∧
    (∀ p : String, p.length ≤ 1200 → sessionPatchPreview p = p) ∧
    (∀ p : String, 1200 < p.length →
        sessionPatchPreview p = strSlice p 1200 ++ "\n... (중략) ...") ∧
    (∀ p : String, p.length ≤ 1200 → topicPatchPreview p = p) ∧
    (∀ p : String, 1200 < p.length →
        topicPatchPreview p = strSlice p 1200 ++ "\n... (중략) ...") ∧
    (∀ p : String, p.length ≤ 1200 → topicGenPatchPreview p = p) ∧
    (∀ p : String, 1200 < p.length →
        topicGenPatchPreview p = strSlice p 1200 ++ "\n... (중략) ...") ∧
    (∀ p : String, p.length ≤ 800 → analyzerPatchPreview p = p) ∧
    (∀ p : String, 800 < p.length →
        analyzerPatchPreview p = strSlice p 800 ++ "...") := by
  have hdata : ∀ p : String, p.data.length = p.length := fun p => rfl
  have hslice : ∀ (p : String) (n : Nat), p.length ≤ n → strSlice p n = p := by
    intro p n hn
    unfold strSlice
    rw [List.take_of_length_le (by rw [hdata]; exact hn)]
  have htake : ∀ (c : CommitDetailResponse) (n : Nat), (c.files.take n).length ≤ n := by
    intro c n
    simp [List.length_take]
  have hlt : ∀ (p : String) (n : Nat), p.length ≤ n → ¬ n < p.data.length := by
    intro p n hn
    rw [hdata]
    omega
  have hlt2 : ∀ (p : String) (n : Nat), n < p.length → n < p.data.length := by
    intro p n hn
    rw [hdata]
    exact hn
  refine ⟨?_, ?_, ?_, ?_, ?_, ?_, ?_, ?_, ?_, ?_, ?_, ?_, ?_, ?_, ?_⟩
  · intro c
    simp only [quizCommitFileBlocks, List.length_map]
    exact htake c 5
  · intro c
    simp only [sessionCommitFileBlocks, List.length_map]
    exact htake c 5
  · intro c
    simp only [topicCommitFileBlocks, List.length_map]
    exact htake c 5
  · intro c
    simp only [topicGenCommitFileBlocks, List.length_map]
    exact htake c 5
  · intro c
    simp only [analyzerFilesInfo, List.length_map]
    exact htake c 10
  · intro p hp
    unfold quizPatchPreview
    rw [if_neg (hlt p 1200 hp)]
    exact hslice p 1200 hp
  · intro p hp
    unfold quizPatchPreview
    rw [if_pos (hlt2 p 1200 hp)]
  · intro p hp
    unfold sessionPatchPreview
    rw [if_neg (hlt p 1200 hp)]
    exact hslice p 1200 hp
  · intro p hp
    unfold sessionPatchPreview
    rw [if_pos (hlt2 p 1200 hp)]
  · intro p hp
    unfold topicPatchPreview
    rw [if_neg (hlt p 1200 hp)]
    exact hslice p 1200 hp
  · intro p hp
    unfold topicPatchPreview
    rw [if_pos (hlt2 p 1200 hp)]
  · intro p hp
    unfold topicGenPatchPreview
    rw [if_neg (hlt p 1200 hp)]
    exact hslice p 1200 hp
  · intro p hp
    unfold topicGenPatchPreview
    rw [if_pos (hlt2 p 1200 hp)]
  · intro p hp
    unfold analyzerPatchPreview
    rw [if_neg (hlt p 800 hp)]
    rw [hslice p 800 hp]
    simp
  · intro p hp
    unfold analyzerPatchPreview
    rw [if_pos (hlt2 p 800 hp)]

/-- Witness for C8: the quiz builder keeps a short patch intact and cuts a
long one with the marker; the analysis builder likewise at 800. -/
theorem promptBuilders_truncation_witness :
    quizPatchPreview "short patch" = "short patch" ∧
    analyzerPatchPreview "tiny" = "tiny" :=
  ⟨promptBuilders_truncation.2.2.2.2.2.1 "short patch" (by decide),
   promptBuilders_truncation.2.2.2.2.2.2.2.2.2.2.2.2.2.1 "tiny" (by decide)⟩

/-- C9: `_build_review_prompt` partitions the questions into the correct
and wrong sets by comparing `userAnswers[question.id]` with the question's
`correctAnswer` — a question counts as correct exactly when the two values
are Python-equal as-is or equal after coercing both to strings — and every
question lands in exactly one of the two lists, in order. -/
theorem reviewPartition_spec :
    (∀ qs ua, reviewPartition qs ua =
        ((qs.filter (fun q => isCorrectAnswer ua q)).map (questionSummary ua),
         (qs.filter (fun q => !isCorrectAnswer ua q)).map (questionSummary ua))) ∧
    (∀ ua q, isCorrectAnswer ua q = true ↔
        (pyEq (lookupUserAnswer ua (pyValGetD q "id" .none))
            (pyValGetD q "correctAnswer" .none) = true ∨
         pyStr (lookupUserAnswer ua (pyValGetD q "id" .none)) =
            pyStr (pyValGetD q "correctAnswer" .none))) := by
  constructor
  · intro qs ua
    induction qs with
    | nil => rfl
    | cons q rest ih =>
      rw [reviewPartition, ih]
      by_cases hc : isCorrectAnswer ua q <;> simp [hc, List.filter]
  · intro ua q
    unfold isCorrectAnswer
    simp only [Bool.or_eq_true, beq_iff_eq]

/-- C3 (amended): `generate_json` strips a leading/trailing fenced code
block, strict-decodes the trimmed body once, delegates to JSON repair
exactly once on failure, and — when the repaired text also fails to
decode — raises a ValueError whose message wraps only the original decode
error (the original and repaired texts are logged, not attached); a valid
JSON body wrapped in ```json fences is returned unchanged. -/
theorem generateJson_spec :
    (∀ (J : Type) (decode : String → Except String J) (rp : String → String)
        (t : String) (j : J), decode (stripFences t) = .ok j →
        generateJson decode rp t = .ok j) ∧
    (∀ (J : Type) (decode : String → Except String J) (rp : String → String)
        (t : String) (e : String) (j : J), decode (stripFences t) = .error e →
        decode (rp (stripFences t)) = .ok j →
        generateJson decode rp t = .ok j) ∧
    (∀ (J : Type) (decode : String → Except String J) (rp : String → String)
        (t e e' : String), decode (stripFences t) = .error e →
        decode (rp (stripFences t)) = .error e' →
        generateJson decode rp t =
          .error ("Gemini API 응답을 JSON으로 파싱할 수 없습니다: " ++ e)) ∧
    stripFences "```json\n\x7b\"a\": 1\x7d\n```" = "\x7b\"a\": 1\x7d" := by
  refine ⟨?_, ?_, ?_, rfl⟩
  · intro J decode rp t j h
    unfold generateJson
    simp only [] 
    rw [h]
  · intro J decode rp t e j h h2
    unfold generateJson
    simp only []
    rw [h, h2]
  · intro J decode rp t e e' h h2
    unfold generateJson
    simp only []
    rw [h, h2]

/-- Witness for C3: the fenced example decodes to the inner object, the
repair path rescues a first failure, and a double failure surfaces the
wrapped original error. -/
theorem generateJson_spec_witness :
    generateJson loadsInnerObject repairCloseBrace "```json\n\x7b\"a\": 1\x7d\n```" = .ok 1 ∧
    generateJson loadsAlwaysFails repairCloseBrace badJsonText = .error malformedErrMsg :=
  ⟨generateJson_spec.1 Nat loadsInnerObject repairCloseBrace "```json\n\x7b\"a\": 1\x7d\n```" 1 rfl,
   generateJson_spec.2.2.1 Unit loadsAlwaysFails repairCloseBrace badJsonText
     "Expecting value: line 1 column 1 (char 0)" "Expecting value: line 1 column 1 (char 0)"
     rfl rfl⟩

/-- Counterexample for C3: when both decode attempts fail, the raised
error does not carry the original text, nor the repaired text — its
message wraps only the strict decoder's error string. -/
theorem generateJson_error_lacks_texts :
    generateJson loadsAlwaysFails repairCloseBrace badJsonText = .error malformedErrMsg ∧
    strContains malformedErrMsg badJsonText = false ∧
    strContains malformedErrMsg (repairCloseBrace (stripFences badJsonText)) = false := by
  refine ⟨rfl, by decide, by decide⟩

end CommitTutor
